import Mathlib

/-
  Verification development for the iRedAPD 5.9.1 policy evaluation engine.

  Shallow embedding of:
    - libs/sql/modeler.py           (the dispatcher, `Modeler.handle_data`)
    - plugins/ldap_maillist_access_policy.py   (`restriction`)
    - plugins/reject_sender_login_mismatch.py  (`restriction`)

  Python strings are Lean `String`; Python lists are Lean `List`; LDAP
  entries (dicts mapping attribute names to lists of string values) are
  association lists; fallible code returns `Except String`.
-/

namespace IRedAPD

/-- Modelled from the spec: the action table `SMTP_ACTIONS` lives in
`libs/__init__.py`, which is not among the provided source files.  Per the
spec a Verdict is a tagged action line: DEFAULT renders as the `DUNNO`
action line, and the REJECT variants carry a kind-specific non-empty
human-readable reason, so distinct reject kinds render as distinct action
lines. -/
def SMTP_ACTIONS : String → String
  | "default" => "DUNNO"
  | "reject" => "REJECT Not authorized"
  | "reject_not_authorized" => "REJECT Sender is not authorized to send to this recipient"
  | "reject_sender_login_mismatch" => "REJECT Sender login mismatch"
  | "reject_forged_sender" => "REJECT Forged sender address detected"
  | _ => "DUNNO"

/-- Modelled from the spec: the access-policy name constants live in
`libs/__init__.py`, which is not among the provided source files.  The spec
gives a closed enumeration (PUBLIC, DOMAIN, SUBDOMAIN, MEMBERS_ONLY,
MODERATORS, MEMBERS_AND_MODERATORS_ONLY); the plugin lower-cases the stored
value before comparing, so the constants are distinct lower-case strings
(also distinct from the legacy alias value `allowedonly`). -/
def MAILLIST_POLICY_PUBLIC : String := "public"

/-- Modelled from the spec: see `MAILLIST_POLICY_PUBLIC`. -/
def MAILLIST_POLICY_DOMAIN : String := "domain"

/-- Modelled from the spec: see `MAILLIST_POLICY_PUBLIC`. -/
def MAILLIST_POLICY_SUBDOMAIN : String := "subdomain"

/-- Modelled from the spec: see `MAILLIST_POLICY_PUBLIC`. -/
def MAILLIST_POLICY_MEMBERSONLY : String := "membersonly"

/-- Modelled from the spec: see `MAILLIST_POLICY_PUBLIC`. -/
def MAILLIST_POLICY_MODERATORS : String := "moderatorsonly"

/-- Modelled from the spec: see `MAILLIST_POLICY_PUBLIC`. -/
def MAILLIST_POLICY_MEMBERSANDMODERATORSONLY : String := "membersandmoderatorsonly"

/-- Python `s.startswith(pre)`. -/
def pyStartsWith (s pre : String) : Bool :=
  pre.data.isPrefixOf s.data

/-- Python `s.endswith(suf)`. -/
def pyEndsWith (s suf : String) : Bool :=
  suf.data.isSuffixOf s.data

/-- Python `s.upper()` (the protocol states handled here are ASCII). -/
def pyUpper (s : String) : String :=
  String.mk (s.data.map Char.toUpper)

/-- Python `s.lower()` (the policy names handled here are ASCII). -/
def pyLower (s : String) : String :=
  String.mk (s.data.map Char.toLower)

/-- Helper for `pySplitChar`, working on the character list. -/
def splitCharAux (sep : Char) : List Char → List (List Char)
  | [] => [[]]
  | c :: cs =>
    let r := splitCharAux sep cs
    if c == sep then [] :: r
    else
      match r with
      | h :: t => (c :: h) :: t
      | [] => [[c]]

/-- Python `s.split(sep)` for a one-character separator: `"".split(sep)`
yields `[""]`, and every occurrence of the separator starts a new field. -/
def pySplitChar (sep : Char) (s : String) : List String :=
  (splitCharAux sep s.data).map String.mk

/-- Python `c in s` for a single character. -/
def strContainsChar (s : String) (c : Char) : Bool :=
  s.data.contains c

/-- A directory entry (Python dict of attribute name to list of string
values), as an association list.  `utils.bytes2str` is the identity in this
embedding since all values are already strings. -/
abbrev Ldif := List (String × List String)

/-- Python `d.get(k)` returning `None` when the key is absent. -/
def Ldif.get? (l : Ldif) (k : String) : Option (List String) :=
  (l.find? (fun kv => kv.1 == k)).map (fun kv => kv.2)

/-- Python `d.get(k, default)`. -/
def Ldif.getD (l : Ldif) (k : String) (d : List String) : List String :=
  (Ldif.get? l k).getD d

/-- Python `d[k]`, which raises `KeyError` when the key is absent. -/
def Ldif.getItem (l : Ldif) (k : String) : Except String (List String) :=
  match Ldif.get? l k with
  | some v => Except.ok v
  | none => Except.error ("KeyError: " ++ k)

/-- Python loop `for e in qr: for k in attrs: out += e.get(k, [])`
collecting attribute values over a query result. -/
def collectAttrs (attrs : List String) (qr : List (String × Ldif)) : List String :=
  qr.foldl (fun acc e => attrs.foldl (fun a k => a ++ Ldif.getD e.2 k []) acc) []

/-- Modelled from the spec: `utils.is_email` lives in `libs/utils.py`, which
is not among the provided source files.  The spec distinguishes allow-list
entries that are email addresses from domain-name-shaped entries; we model
an email address as `local@domain` with non-empty local part and a dotted
non-empty domain. -/
def is_email (s : String) : Bool :=
  match pySplitChar '@' s with
  | [l, d] => !l.isEmpty && !d.isEmpty && strContainsChar d '.'
  | _ => false

/-- Python `s.lstrip(".")`: drop every leading dot. -/
def lstripDot (s : String) : String :=
  String.mk (s.data.dropWhile (fun c => c == '.'))

namespace Modeler

/-- The SMTP session attributes handed to `Modeler.handle_data`
(`smtp_session_data` plus the derived fields copied into `plugin_kwargs`).
The pooled connection handles in the real `plugin_kwargs` are carried
separately by the plugin oracles in this embedding. -/
structure SessionData where
  protocol_state : String
  sender : String
  recipient : String
  client_address : String
  sasl_username : String
  sender_without_ext : String
  recipient_without_ext : String
  sender_domain : String
  recipient_domain : String
  sasl_username_domain : String

/-- A decision unit handed to the dispatcher.  `SMTP_PROTOCOL_STATE = none`
models a plugin module without that attribute; the dispatcher catches the
`AttributeError` and defaults to `["RCPT"]`. -/
structure Plugin where
  name : String
  SMTP_PROTOCOL_STATE : Option (List String)
  restriction : SessionData → String

/-- Modelled from the spec: `utils.apply_plugin` lives in `libs/utils.py`,
which is not among the provided source files.  Per the spec the wrapper
invokes the plugin with the keyword arguments and maps an unexpected
in-plugin failure to a logged, non-fatal outcome, so it always yields an
action string; we model it as plain application. -/
def apply_plugin (p : Plugin) (sd : SessionData) : String :=
  p.restriction sd

/-- The connection pool handed to `Modeler.__init__`: `conn_vmail` is always
present; `conn_amavisd` and `conn_iredapd` may be absent (falsy), in which
case the corresponding local variable stays `None`. -/
structure ConnPool where
  has_amavisd : Bool
  has_iredapd : Bool

/-- Which acquired connections have been closed when `handle_data` returns. -/
structure CloseRecord where
  vmail_closed : Bool
  amavisd_closed : Bool
  iredapd_closed : Bool
deriving DecidableEq, Repr

/-- No connection was closed. -/
def noCloseRecord : CloseRecord :=
  { vmail_closed := false, amavisd_closed := false, iredapd_closed := false }

/-- The closing block of `handle_data`: `conn_vmail.close()`, then
`conn_iredapd.close()` — which raises `AttributeError` when the iredapd
handle is `None` — then `conn_amavisd.close()` guarded by truthiness; the
bare `except: pass` swallows the failure, skipping the remaining closes. -/
def closeConnections (pool : ConnPool) : CloseRecord :=
  if pool.has_iredapd then
    { vmail_closed := true
      amavisd_closed := pool.has_amavisd
      iredapd_closed := true }
  else
    { vmail_closed := true, amavisd_closed := false, iredapd_closed := false }

/-- The plugin loop of `handle_data`: skip plugins whose declared protocol
states do not include the session protocol state; otherwise invoke the
plugin and return its action as soon as it does not start with `DUNNO`.
Returns the short-circuit action (if any) and the names of the plugins that
were actually invoked. -/
def pluginLoop (protocol_state : String) (sd : SessionData) :
    List Plugin → Option String × List String
  | [] => (none, [])
  | p :: rest =>
    let target := p.SMTP_PROTOCOL_STATE.getD ["RCPT"]
    if !target.contains protocol_state then
      pluginLoop protocol_state sd rest
    else
      let action := apply_plugin p sd
      if !pyStartsWith action "DUNNO" then
        (some action, [p.name])
      else
        let r := pluginLoop protocol_state sd rest
        (r.1, p.name :: r.2)

/-- Embedding of `Modeler.handle_data` (libs/sql/modeler.py).  Returns the
action string, the names of the invoked plugins, and the record of which
pooled connections were closed by return time.  The SQL connections are
acquired right after the empty-plugins check and are closed only by the
fall-through path after the loop. -/
def handle_data (pool : ConnPool) (sd : SessionData) (plugins : List Plugin) :
    String × List String × CloseRecord :=
  if plugins.isEmpty then
    (SMTP_ACTIONS "default" ++ " No enabled plugins", [], noCloseRecord)
  else
    let protocol_state := pyUpper sd.protocol_state
    match pluginLoop protocol_state sd plugins with
    | (some action, invoked) => (action, invoked, noCloseRecord)
    | (none, invoked) => (SMTP_ACTIONS "default", invoked, closeConnections pool)

/-- The plugins the dispatcher considers applicable to a protocol state. -/
def applicablePlugins (protocol_state : String) (plugins : List Plugin) : List Plugin :=
  plugins.filter (fun p => (p.SMTP_PROTOCOL_STATE.getD ["RCPT"]).contains protocol_state)

/-- An action string counts as a DEFAULT verdict for the dispatcher iff it
starts with `DUNNO`. -/
def isDefaultAction (a : String) : Bool :=
  pyStartsWith a "DUNNO"

end Modeler

namespace MLAccessPolicy

/-- The vmail backend handle used by `ldap_maillist_access_policy.py`:
`search_s(base_dn, scope, filterstr, attrlist)` is the raw LDAP search
(which may raise, hence `Except`), and `primary_and_alias_domains` models
`libs.ldaplib.conn_utils.get_primary_and_alias_domains`, an external
collaborator that resolves a domain to itself plus all its alias domains. -/
structure Conn where
  search_s : String → Nat → String → List String → Except String (List (String × Ldif))
  primary_and_alias_domains : String → List String

/-- The keyword arguments consumed by the plugin `restriction` function.
`recipient_ldif = []` models both a `None` and an empty LDIF (Python
truthiness treats them alike at the `if not recipient_ldif` check). -/
structure MLKwargs where
  sasl_username : String
  recipient_without_ext : String
  recipient_ldif : Ldif
  conn_vmail : Conn
  sender_without_ext : String
  sender_domain : String
  recipient_domain : String

/-- The loop body of the possible-sender-domain enumeration: Python iterates
`for _ in _domain_parts` by index while popping the head of the same list
each round, so the index check `i < length` is made against the shrunken
list and the loop stops after roughly half the original labels. -/
def possibleLoop (i : Nat) (acc : List String) : List String → List String
  | [] => acc
  | p :: ps =>
    if i < (p :: ps).length then
      possibleLoop (i + 1) (acc ++ ["." ++ String.intercalate "." (p :: ps)]) ps
    else acc

/-- Embedding of lines 95-100 of `ldap_maillist_access_policy.py`: the list
`_possible_sender_domains` built from the sender domain. -/
def possible_sender_domains (sender_domain : String) : List String :=
  sender_domain :: possibleLoop 0 [] (pySplitChar '.' sender_domain)

/-- The allow-list classification loop of the MODERATORS branch (lines
204-221): Python iterates `for _as in allowed_senders` by index while
calling `allowed_senders.remove(_as)` on the same list, so after a removal
the next element is skipped.  `fuel` bounds the iteration count; it never
runs out when initialised with the length of the list, because the index
grows by one per round while the list never grows.  Returns the mutated
list, `_users` and `_domains`. -/
def moderatorsClassify (rd : String) :
    Nat → List String → Nat → List String → List String →
    List String × List String × List String
  | 0, l, _, us, ds => (l, us, ds)
  | fuel + 1, l, i, us, ds =>
    if h : i < l.length then
      let x := l.get ⟨i, h⟩
      if is_email x then
        if pyEndsWith x ("@" ++ rd) then
          moderatorsClassify rd fuel (l.erase x) (i + 1) (us ++ [x]) ds
        else
          moderatorsClassify rd fuel l (i + 1) us ds
      else
        let d := if pyStartsWith x "." then lstripDot x else x
        moderatorsClassify rd fuel (l.erase x) (i + 1) us (ds ++ [d])
    else (l, us, ds)

/-- The LDAP filter of the MEMBERS_ONLY query (lines 130-133). -/
def membersFilter (recipient : String) : String :=
  "(&" ++ "(accountStatus=active)(memberOfGroup=" ++ recipient ++ ")"
    ++ "(|(objectclass=mailUser)(objectClass=mailExternalUser))" ++ ")"

/-- The LDAP filter of the MEMBERS_AND_MODERATORS_ONLY query (lines
159-162). -/
def mamoFilter (recipient : String) : String :=
  "(|"
    ++ "(&(memberOfGroup=" ++ recipient
    ++ ")(|(objectClass=mailUser)(objectClass=mailExternalUser)))"
    ++ "(&(objectclass=mailList)(mail=" ++ recipient ++ "))" ++ ")"

/-- The LDAP filter built for the per-user alias expansion of the
MODERATORS branch. -/
def usersFilter (us : List String) : String :=
  "(&(objectClass=mailUser)(enabledService=shadowaddress)(|"
    ++ String.join (us.map (fun i => "(mail=" ++ i ++ ")(shadowAddress=" ++ i ++ ")"))
    ++ "))"

/-- The LDAP filter built for the alias-domain expansion of the MODERATORS
branch. -/
def domainsFilter (ds : List String) : String :=
  "(&(objectClass=mailDomain)(enabledService=domainalias)(|"
    ++ String.join (ds.map (fun i => "(domainName=" ++ i ++ ")(domainAliasName=" ++ i ++ ")"))
    ++ "))"

/-- The per-entry body of the alias-domain expansion loop (lines 270-278):
collect all `domainName`/`domainAliasName` values of the entry, and for
every collected value that is one of the allowed `_domains`, append the
whole collection to the allowed senders. -/
def domainExpandEntry (ds : List String) (ldif : Ldif) (acc : List String) : List String :=
  let _all_domains := ["domainName", "domainAliasName"].foldl
    (fun a k => a ++ Ldif.getD ldif k []) []
  _all_domains.foldl (fun a domain => if ds.contains domain then a ++ _all_domains else a) acc

/-- The per-user alias expansion of the MODERATORS branch (lines 227-249):
skipped when `_users` is empty, otherwise one query (which may raise) whose
`mail`/`shadowAddress` values are appended to the allowed senders. -/
def moderatorsUsersStep (conn : Conn) (dn_rcpt_domain : String)
    (rest _users : List String) : Except String (List String) :=
  if _users.isEmpty then Except.ok rest
  else
    match conn.search_s ("ou=Users," ++ dn_rcpt_domain) 1
        (usersFilter _users) ["mail", "shadowAddress"] with
    | Except.error e => Except.error e
    | Except.ok qr => Except.ok (rest ++ collectAttrs ["mail", "shadowAddress"] qr)

/-- The alias-domain expansion of the MODERATORS branch (lines 251-278):
skipped when `_domains` is empty, otherwise one query (which may raise)
whose matching entries expand the allowed senders via `domainExpandEntry`. -/
def moderatorsDomainsStep (conn : Conn) (basedn : String)
    (as1 _domains : List String) : Except String (List String) :=
  if _domains.isEmpty then Except.ok as1
  else
    match conn.search_s basedn 1 (domainsFilter _domains)
        ["domainName", "domainAliasName"] with
    | Except.error e => Except.error e
    | Except.ok qr => Except.ok (qr.foldl (fun acc e => domainExpandEntry _domains e.2 acc) as1)

/-- The MODERATORS branch (lines 191-284) after the shared bypasses:
reject when unauthenticated, drop `*@` entries, classify the remaining
allow-list entries, expand `_users` through the per-user alias query and
`_domains` through the alias-domain query, then test sender and sender
domain against the result. -/
def ml_moderators (basedn : String) (kw : MLKwargs)
    (explicitly_allowed_senders : List String) (dn_rcpt_domain : String) :
    Except String String :=
  if kw.sasl_username.isEmpty then
    Except.ok (SMTP_ACTIONS "reject_not_authorized")
  else
    let allowed0 := explicitly_allowed_senders.filter (fun s => !pyStartsWith s "*@")
    match moderatorsClassify kw.recipient_domain allowed0.length allowed0 0 [] [] with
    | (rest, _users, _domains) =>
      match moderatorsUsersStep kw.conn_vmail dn_rcpt_domain rest _users with
      | Except.error e => Except.error e
      | Except.ok as1 =>
        match moderatorsDomainsStep kw.conn_vmail basedn as1 _domains with
        | Except.error e => Except.error e
        | Except.ok as2 =>
          if as2.contains kw.sender_without_ext || as2.contains kw.sender_domain then
            Except.ok (SMTP_ACTIONS "default")
          else
            Except.ok (SMTP_ACTIONS "reject_not_authorized")

/-- The policy dispatch of `restriction` (lines 111-286), reached once the
sender passed none of the shared bypasses: DOMAIN/SUBDOMAIN check the
sender domain against the recipient domains, MEMBERS_ONLY and
MEMBERS_AND_MODERATORS_ONLY query the directory (only the latter guards
the query with `try`), MODERATORS runs the allow-list expansion, and an
unknown policy falls through to a diagnostic DEFAULT. -/
def ml_policy_dispatch (basedn : String) (kw : MLKwargs) (policy : String)
    (valid_rcpt_domains explicitly_allowed_senders : List String) :
    Except String String :=
  let dn_rcpt_domain := "domainName=" ++ kw.recipient_domain ++ "," ++ basedn
  if policy == MAILLIST_POLICY_DOMAIN || policy == MAILLIST_POLICY_SUBDOMAIN then
    if policy == MAILLIST_POLICY_DOMAIN
        && valid_rcpt_domains.contains kw.sender_domain then
      Except.ok (SMTP_ACTIONS "default")
    else if policy == MAILLIST_POLICY_SUBDOMAIN
        && valid_rcpt_domains.any
          (fun d => kw.sender_domain == d || pyEndsWith kw.sender_domain ("." ++ d)) then
      Except.ok (SMTP_ACTIONS "default")
    else
      Except.ok (SMTP_ACTIONS "reject_not_authorized")
  else if policy == MAILLIST_POLICY_MEMBERSONLY then
    match kw.conn_vmail.search_s dn_rcpt_domain 2 (membersFilter kw.recipient_without_ext)
        ["mail", "shadowAddress"] with
    | Except.error e => Except.error e
    | Except.ok qr =>
      let allowed_senders := collectAttrs ["mail", "shadowAddress"] qr
      if allowed_senders.contains kw.sender_without_ext then
        Except.ok (SMTP_ACTIONS "default")
      else
        Except.ok (SMTP_ACTIONS "reject_not_authorized")
  else if policy == MAILLIST_POLICY_MEMBERSANDMODERATORSONLY then
    match kw.conn_vmail.search_s dn_rcpt_domain 2 (mamoFilter kw.recipient_without_ext)
        ["mail", "shadowAddress", "listAllowedUser"] with
    | Except.error e =>
      Except.ok (SMTP_ACTIONS "default"
        ++ " (Error while querying allowed senders of mailing list (access policy: "
        ++ MAILLIST_POLICY_MEMBERSANDMODERATORSONLY ++ "): " ++ e ++ ")")
    | Except.ok qr =>
      let allowed_senders := collectAttrs ["mail", "shadowAddress", "listAllowedUser"] qr
      if allowed_senders.contains kw.sender_without_ext then
        Except.ok (SMTP_ACTIONS "default")
      else
        Except.ok (SMTP_ACTIONS "reject_not_authorized")
  else if policy == MAILLIST_POLICY_MODERATORS then
    ml_moderators basedn kw explicitly_allowed_senders dn_rcpt_domain
  else
    Except.ok (SMTP_ACTIONS "default" ++ " (Unknown access policy: " ++ policy
      ++ ", no restriction)")

/-- Lines 66-109 of `restriction`: resolve the recipient domains, bypass
moderators, owners and explicitly allowed senders (including the
possible-sender-domain suffixes), then dispatch on the policy. -/
def ml_after_bypass (basedn : String) (kw : MLKwargs) (policy : String) :
    Except String String :=
  let valid_rcpt_domains := kw.conn_vmail.primary_and_alias_domains kw.recipient_domain
  if (Ldif.getD kw.recipient_ldif "listModerator" []).contains kw.sender_without_ext then
    Except.ok (SMTP_ACTIONS "default")
  else if (Ldif.getD kw.recipient_ldif "listOwner" []).contains kw.sender_without_ext then
    Except.ok (SMTP_ACTIONS "default")
  else
    let explicitly_allowed_senders := Ldif.getD kw.recipient_ldif "listAllowedUser" []
    if explicitly_allowed_senders.contains kw.sender_without_ext then
      Except.ok (SMTP_ACTIONS "default" ++ "  (Sender is allowed explicitly: "
        ++ kw.sender_without_ext ++ ")")
    else if explicitly_allowed_senders.contains kw.sender_domain
        || explicitly_allowed_senders.contains ("*@" ++ kw.sender_domain) then
      Except.ok (SMTP_ACTIONS "default" ++ "  (Sender domain is allowed explicitly: "
        ++ kw.sender_domain ++ ")")
    else if (possible_sender_domains kw.sender_domain).any
        (fun d => explicitly_allowed_senders.contains d) then
      Except.ok (SMTP_ACTIONS "default" ++ " (Sender domain or its sub-domain is explicitly allowed)")
    else
      ml_policy_dispatch basedn kw policy valid_rcpt_domains explicitly_allowed_senders

/-- Embedding of `restriction` in `plugins/ldap_maillist_access_policy.py`.
The early bypasses (lines 31-64) come first: not a list send, no LDIF
data, not a mailing list, disabled list, the `accessPolicy` read — which
raises `IndexError` when the attribute is present with zero values — the
PUBLIC bypass, the legacy `allowedonly` alias and the mlmmj delegation. -/
def restriction (basedn : String) (kw : MLKwargs) : Except String String :=
  if kw.sasl_username == kw.recipient_without_ext then
    Except.ok (SMTP_ACTIONS "default" ++ " (sasl_username == recipient, not a mail list account)")
  else if kw.recipient_ldif.isEmpty then
    Except.ok (SMTP_ACTIONS "default" ++ " (Recipient is not a local account - no LDIF data)")
  else
    match Ldif.getItem kw.recipient_ldif "objectClass" with
    | Except.error e => Except.error e
    | Except.ok objectClass =>
      if !objectClass.contains "mailList" then
        Except.ok (SMTP_ACTIONS "default" ++ " (Recipient is not a mailing list account)")
      else if Ldif.getD kw.recipient_ldif "accountStatus" [] != ["active"] then
        Except.ok (SMTP_ACTIONS "reject")
      else
        match (Ldif.getD kw.recipient_ldif "accessPolicy" [MAILLIST_POLICY_PUBLIC]).head? with
        | none => Except.error "IndexError: list index out of range"
        | some policy0 =>
          let policy := pyLower policy0
          if policy == MAILLIST_POLICY_PUBLIC then
            Except.ok (SMTP_ACTIONS "default" ++ " (Access policy: "
              ++ MAILLIST_POLICY_PUBLIC ++ ", no restriction)")
          else
            let policy := if policy == "allowedonly" then MAILLIST_POLICY_MODERATORS else policy
            if (Ldif.getD kw.recipient_ldif "enabledService" []).contains "mlmmj"
                && (policy == MAILLIST_POLICY_MEMBERSONLY
                    || policy == MAILLIST_POLICY_MODERATORS) then
              Except.ok (SMTP_ACTIONS "default")
            else
              ml_after_bypass basedn kw policy

end MLAccessPolicy

namespace LoginMismatch

/-- The module-level configuration read from `settings` by
`reject_sender_login_mismatch.py`.  A `None` API token or endpoint is
modelled as the empty string (both are treated by truthiness). -/
structure RSettings where
  backend : String
  CHECK_FORGED_SENDER : Bool
  ALLOWED_FORGED_SENDERS : List String
  ALLOWED_LOGIN_MISMATCH_SENDERS : List String
  ALLOWED_LOGIN_MISMATCH_STRICTLY : Bool
  ALLOWED_LOGIN_MISMATCH_LIST_MEMBER : Bool
  CHECK_SPF_IF_LOGIN_MISMATCH : Bool
  mlmmjadmin_api_auth_token : String
  mlmmjadmin_api_endpoint : String

/-- The external collaborators consumed by the plugin.  LDAP lookups are
keyed by account and filter string and return the matched DN (empty string
models a falsy `None`/empty DN, as `conn_utils.get_account_ldif` catches
its own errors); the relational lookups are the parameterized one-row
`SELECT`s of the SQL branch, keyed by their parameters; `mlmmj_api` is the
HTTP membership call, whose `Except.error` models any transport or JSON
parse failure, and whose payload maps JSON keys to truthiness. -/
structure RSOracles where
  is_trusted_client : String → Bool
  is_local_domain : String → Bool
  is_allowed_server_in_spf : String → String → Bool
  get_account_ldif_dn : String → String → String
  sql_user_alias_row : String → String → String → Bool
  sql_alias_domain_row : String → String → Bool
  sql_list_member_row : String → String → Bool
  sql_maillist_row : String → Bool
  mlmmj_api : String → Except String (List (String × Bool))

/-- The keyword arguments consumed by the plugin `restriction` function. -/
structure RKwargs where
  sasl_username : String
  sasl_username_domain : String
  sender_without_ext : String
  recipient_domain : String
  client_address : String

/-- Module-level `action_reject = SMTP_ACTIONS['reject_sender_login_mismatch']`. -/
def action_reject : String :=
  SMTP_ACTIONS "reject_sender_login_mismatch"

/-- Lines 130-133: `(sender_name, sender_domain) = sender.split('@', 1)`,
guarded by `if sender:`.  When the sender is non-empty but contains no
`@`, the two-element unpacking raises `ValueError`. -/
def rs_split_sender (sender : String) : Except String (String × String) :=
  if sender.isEmpty then Except.ok ("", "")
  else
    match pySplitChar '@' sender with
    | [_n] => Except.error "ValueError: not enough values to unpack (expected 2, got 1)"
    | n :: rest => Except.ok (n, String.intercalate "@" rest)
    | [] => Except.error "ValueError: not enough values to unpack (expected 2, got 0)"

/-- The unauthenticated case (lines 149-196): bypass trusted clients,
disabled forged-sender checking and allowed forged senders; then decide
whether the sender domain is local (equal to the recipient domain, or a
local non-backup-MX domain per the directory); a local sender domain is
rejected as forged unless the optional SPF check passes. -/
def rs_unauth (st : RSettings) (o : RSOracles) (kw : RKwargs)
    (sender_name sender_domain : String) : String :=
  if o.is_trusted_client kw.client_address then SMTP_ACTIONS "default"
  else if !st.CHECK_FORGED_SENDER then SMTP_ACTIONS "default"
  else if st.ALLOWED_FORGED_SENDERS.contains kw.sender_without_ext
      || st.ALLOWED_FORGED_SENDERS.contains sender_domain
      || st.ALLOWED_FORGED_SENDERS.contains (sender_name ++ "@*") then
    SMTP_ACTIONS "default"
  else
    let _is_local_sender_domain :=
      if sender_domain == kw.recipient_domain then true
      else o.is_local_domain sender_domain
    if _is_local_sender_domain then
      if st.CHECK_SPF_IF_LOGIN_MISMATCH
          && o.is_allowed_server_in_spf sender_domain kw.client_address then
        SMTP_ACTIONS "default"
      else
        SMTP_ACTIONS "reject_forged_sender"
    else
      SMTP_ACTIONS "default"

/-- The explicit allow-list check (lines 214-228): `some action` is an
immediate DEFAULT, `none` means fall through to the remaining checks (a
non-match never rejects here). -/
def rs_allowed_senders_check (st : RSettings) (sasl_username sasl_username_domain sender_domain : String) :
    Option String :=
  if st.ALLOWED_LOGIN_MISMATCH_SENDERS.isEmpty then none
  else if st.ALLOWED_LOGIN_MISMATCH_SENDERS.contains sasl_username then
    some (SMTP_ACTIONS "default")
  else if st.ALLOWED_LOGIN_MISMATCH_SENDERS.contains sasl_username_domain then
    some (SMTP_ACTIONS "default")
  else if st.ALLOWED_LOGIN_MISMATCH_SENDERS.contains ("@" ++ sasl_username_domain)
      || st.ALLOWED_LOGIN_MISMATCH_SENDERS.contains "@." then
    if sasl_username_domain == sender_domain then some (SMTP_ACTIONS "default") else none
  else none

/-- The combined LDAP filter of the strict-alias / list-member block
(lines 242-255), chosen from the enabled modes. -/
def ldapQueryFilter (st : RSettings) (sasl_username sender : String) : String :=
  let filter_user_alias := "(&(objectClass=mailUser)(mail=" ++ sasl_username
    ++ ")(shadowAddress=" ++ sender ++ "))"
  let filter_list_member := "(&(objectClass=mailUser)(|(mail=" ++ sasl_username
    ++ ")(shadowAddress=" ++ sasl_username ++ "))(memberOfGroup=" ++ sender ++ "))"
  let filter_alias_member := "(&(objectClass=mailAlias)(|(mail=" ++ sender
    ++ ")(shadowAddress=" ++ sender ++ "))(mailForwardingAddress=" ++ sasl_username ++ "))"
  if st.ALLOWED_LOGIN_MISMATCH_STRICTLY && !st.ALLOWED_LOGIN_MISMATCH_LIST_MEMBER then
    filter_user_alias
  else if !st.ALLOWED_LOGIN_MISMATCH_STRICTLY && st.ALLOWED_LOGIN_MISMATCH_LIST_MEMBER then
    "(|" ++ filter_list_member ++ filter_alias_member ++ ")"
  else
    "(|" ++ filter_user_alias ++ filter_list_member ++ filter_alias_member ++ ")"

/-- The LDAP strict-alias / list-member block (lines 241-277): one combined
query built from the enabled modes, an immediate DEFAULT on a match, then
the mlmmj mailing-list probe.  Returns the early action (if any), the
`real_sender` (unchanged on this backend) and the `_check_mlmmj_ml` flag. -/
def rs_ldap_checks (st : RSettings) (o : RSOracles) (sasl_username sender : String) :
    Option String × String × Bool :=
  if !(o.get_account_ldif_dn sasl_username (ldapQueryFilter st sasl_username sender)).isEmpty then
    (some (SMTP_ACTIONS "default"), sender, false)
  else
    let _dn2 := o.get_account_ldif_dn sender
      "(&(objectClass=mailList)(enabledService=mlmmj)(accountStatus=active))"
    (none, sender, !_dn2.isEmpty)

/-- The MySQL/PostgreSQL strict-alias / list-member block (lines 279-356):
the per-user alias query, the alias-domain rewrite of `real_sasl_username`
and `real_sender`, the list/alias membership query and the subscribeable
mailing-list probe.  Returns the early action (if any), the final
`real_sender` and the `_check_mlmmj_ml` flag. -/
def rs_sql_checks (st : RSettings) (o : RSOracles)
    (sasl_username sasl_username_user sasl_username_domain sender sender_name sender_domain : String) :
    Option String × String × Bool :=
  let strictRes : Option String × String × String :=
    if st.ALLOWED_LOGIN_MISMATCH_STRICTLY then
      if o.sql_user_alias_row sender sasl_username
          (sasl_username_user ++ "+%@" ++ sasl_username_domain) then
        (some (SMTP_ACTIONS "default"), sasl_username, sender)
      else if sender_domain != sasl_username_domain
          && o.sql_alias_domain_row sender_domain sasl_username_domain then
        let real_sasl := sasl_username_user ++ "@" ++ sasl_username_domain
        let real_snd := sender_name ++ "@" ++ sasl_username_domain
        if sender_name == sasl_username_user then
          (some (SMTP_ACTIONS "default"), real_sasl, real_snd)
        else
          (none, real_sasl, real_snd)
      else (none, sasl_username, sender)
    else (none, sasl_username, sender)
  match strictRes with
  | (some a, _, real_snd) => (some a, real_snd, false)
  | (none, real_sasl, real_snd) =>
    if st.ALLOWED_LOGIN_MISMATCH_LIST_MEMBER then
      if o.sql_list_member_row real_snd real_sasl then
        (some (SMTP_ACTIONS "default"), real_snd, false)
      else
        (none, real_snd, o.sql_maillist_row real_snd)
    else (none, real_snd, false)

/-- The tail of the authenticated case (lines 230-376): run the backend
strict-alias / list-member checks when enabled, then — when the sender was
recognised as a subscribeable mlmmj list and the API is configured — the
remote membership call, whose failure is caught and treated as a no-match;
otherwise the final mismatch reject. -/
def rs_member_checks (st : RSettings) (o : RSOracles)
    (sasl_username sasl_username_user sasl_username_domain sender sender_name sender_domain : String) :
    String :=
  let step : Option String × String × Bool :=
    if st.ALLOWED_LOGIN_MISMATCH_STRICTLY || st.ALLOWED_LOGIN_MISMATCH_LIST_MEMBER then
      if st.backend == "ldap" then
        rs_ldap_checks st o sasl_username sender
      else if st.backend == "mysql" || st.backend == "pgsql" then
        rs_sql_checks st o sasl_username sasl_username_user sasl_username_domain
          sender sender_name sender_domain
      else (none, sender, false)
    else (none, sender, false)
  match step with
  | (some a, _, _) => a
  | (none, real_sender, _check_mlmmj_ml) =>
    if _check_mlmmj_ml then
      if !st.mlmmjadmin_api_auth_token.isEmpty && !st.mlmmjadmin_api_endpoint.isEmpty then
        let _api_endpoint := String.intercalate "/"
          [st.mlmmjadmin_api_endpoint, real_sender, "has_subscriber", sasl_username]
        match o.mlmmj_api _api_endpoint with
        | Except.error _ => action_reject
        | Except.ok _json =>
          match _json.lookup "_success" with
          | some true => SMTP_ACTIONS "default"
          | _ => action_reject
      else action_reject
    else action_reject

/-- The authenticated case (lines 198-376): identity match, the
no-configuration immediate reject, the explicit allow-list, then the
strict-alias / list-member / mlmmj checks. -/
def rs_auth (st : RSettings) (o : RSOracles) (kw : RKwargs)
    (sender_name sender_domain : String) : String :=
  let sasl_username := kw.sasl_username
  let sasl_username_user := (pySplitChar '@' sasl_username).headD ""
  if kw.sender_without_ext == sasl_username then SMTP_ACTIONS "default"
  else if !(!st.ALLOWED_LOGIN_MISMATCH_SENDERS.isEmpty
      || st.ALLOWED_LOGIN_MISMATCH_STRICTLY
      || st.ALLOWED_LOGIN_MISMATCH_LIST_MEMBER) then
    action_reject
  else
    match rs_allowed_senders_check st sasl_username kw.sasl_username_domain sender_domain with
    | some a => a
    | none =>
      rs_member_checks st o sasl_username sasl_username_user kw.sasl_username_domain
        kw.sender_without_ext sender_name sender_domain

/-- Embedding of `restriction` in `plugins/reject_sender_login_mismatch.py`:
split the sender, delegate the null sender, then branch on whether the
transaction is authenticated. -/
def restriction (st : RSettings) (o : RSOracles) (kw : RKwargs) : Except String String :=
  match rs_split_sender kw.sender_without_ext with
  | Except.error e => Except.error e
  | Except.ok (sender_name, sender_domain) =>
    if !kw.sasl_username.isEmpty && kw.sender_without_ext.isEmpty then
      Except.ok (SMTP_ACTIONS "default")
    else if kw.sasl_username.isEmpty then
      Except.ok (rs_unauth st o kw sender_name sender_domain)
    else
      Except.ok (rs_auth st o kw sender_name sender_domain)

end LoginMismatch

namespace Fixtures

open Modeler MLAccessPolicy LoginMismatch

/-- A session at the RCPT protocol state. -/
def sdRcpt : Modeler.SessionData :=
  { protocol_state := "RCPT"
    sender := "u@a.com"
    recipient := "l@b.com"
    client_address := "192.0.2.9"
    sasl_username := "u@a.com"
    sender_without_ext := "u@a.com"
    recipient_without_ext := "l@b.com"
    sender_domain := "a.com"
    recipient_domain := "b.com"
    sasl_username_domain := "a.com" }

/-- A pool with all three backends configured. -/
def poolFull : Modeler.ConnPool :=
  { has_amavisd := true, has_iredapd := true }

/-- A pool without the iredapd backend. -/
def poolNoIredapd : Modeler.ConnPool :=
  { has_amavisd := true, has_iredapd := false }

/-- A plugin returning a DEFAULT verdict at RCPT. -/
def pluginDunno : Modeler.Plugin :=
  { name := "plugin_dunno", SMTP_PROTOCOL_STATE := some ["RCPT"]
    restriction := fun _ => "DUNNO fine" }

/-- A plugin that only applies at the DATA state. -/
def pluginDataOnly : Modeler.Plugin :=
  { name := "plugin_data_only", SMTP_PROTOCOL_STATE := some ["DATA"]
    restriction := fun _ => "REJECT other phase" }

/-- The first rejecting plugin at RCPT. -/
def pluginRejectA : Modeler.Plugin :=
  { name := "plugin_reject_a", SMTP_PROTOCOL_STATE := some ["RCPT"]
    restriction := fun _ => "REJECT first hit" }

/-- A second rejecting plugin, with no declared protocol state (defaults to
RCPT). -/
def pluginRejectB : Modeler.Plugin :=
  { name := "plugin_reject_b", SMTP_PROTOCOL_STATE := none
    restriction := fun _ => "REJECT second hit" }

/-- An LDAP base DN for the list-policy fixtures. -/
def basedn0 : String := "o=domains,dc=example,dc=io"

/-- A vmail handle whose searches match nothing and whose domain resolution
returns only the domain itself. -/
def connNone : MLAccessPolicy.Conn :=
  { search_s := fun _ _ _ _ => Except.ok []
    primary_and_alias_domains := fun d => [d] }

/-- A vmail handle whose searches always fail. -/
def connErr : MLAccessPolicy.Conn :=
  { search_s := fun _ _ _ _ => Except.error "LDAP SERVER_DOWN"
    primary_and_alias_domains := fun d => [d] }

/-- An active mailing list entry whose `accessPolicy` attribute is present
with zero values. -/
def kwEmptyPolicy : MLAccessPolicy.MLKwargs :=
  { sasl_username := "someone@d.com"
    recipient_without_ext := "list@d.com"
    recipient_ldif := [("objectClass", ["mailList"]), ("accountStatus", ["active"]),
                       ("accessPolicy", [])]
    conn_vmail := connNone
    sender_without_ext := "someone@d.com"
    sender_domain := "d.com"
    recipient_domain := "d.com" }

/-- An active PUBLIC mailing list entry. -/
def kwPublic : MLAccessPolicy.MLKwargs :=
  { sasl_username := "someone@d.com"
    recipient_without_ext := "list@d.com"
    recipient_ldif := [("objectClass", ["mailList"]), ("accountStatus", ["active"]),
                       ("accessPolicy", ["public"])]
    conn_vmail := connNone
    sender_without_ext := "someone@d.com"
    sender_domain := "d.com"
    recipient_domain := "d.com" }

/-- An active MEMBERS_AND_MODERATORS_ONLY list evaluated against a failing
directory. -/
def kwMamo : MLAccessPolicy.MLKwargs :=
  { sasl_username := "someone@e.com"
    recipient_without_ext := "list@d.com"
    recipient_ldif := [("objectClass", ["mailList"]), ("accountStatus", ["active"]),
                       ("accessPolicy", ["membersandmoderatorsonly"])]
    conn_vmail := connErr
    sender_without_ext := "someone@e.com"
    sender_domain := "e.com"
    recipient_domain := "d.com" }

/-- The directory for the MODERATORS fixture: the per-user alias query built
from `u1@d.com` alone matches only `u1`; the query that would also name
`u2@d.com` would have matched `u2`, whose `shadowAddress` is
`alias2@d.com`. -/
def connModerators : MLAccessPolicy.Conn :=
  { search_s := fun _ _ f _ =>
      if f == MLAccessPolicy.usersFilter ["u1@d.com"] then
        Except.ok [("mail=u1@d.com,ou=Users", [("mail", ["u1@d.com"]), ("shadowAddress", ["alias1@d.com"])])]
      else if f == MLAccessPolicy.usersFilter ["u1@d.com", "u2@d.com"] then
        Except.ok [("mail=u1@d.com,ou=Users", [("mail", ["u1@d.com"]), ("shadowAddress", ["alias1@d.com"])]),
                   ("mail=u2@d.com,ou=Users", [("mail", ["u2@d.com"]), ("shadowAddress", ["alias2@d.com"])])]
      else Except.ok []
    primary_and_alias_domains := fun d => [d] }

/-- A MODERATORS list allowing `u1@d.com` and `u2@d.com`, with the sender
using `u2`'s registered alias address `alias2@d.com`. -/
def kwModerators : MLAccessPolicy.MLKwargs :=
  { sasl_username := "someone@d.com"
    recipient_without_ext := "list@d.com"
    recipient_ldif := [("objectClass", ["mailList"]), ("accountStatus", ["active"]),
                       ("accessPolicy", ["moderatorsonly"]),
                       ("listAllowedUser", ["u1@d.com", "u2@d.com"])]
    conn_vmail := connModerators
    sender_without_ext := "alias2@d.com"
    sender_domain := "d.com"
    recipient_domain := "d.com" }

/-- A DOMAIN-policy list whose allow-list holds the dotted suffix `.com`,
with a sender from the foreign domain `x.com`. -/
def kwDotCom : MLAccessPolicy.MLKwargs :=
  { sasl_username := "someone@x.com"
    recipient_without_ext := "list@d.com"
    recipient_ldif := [("objectClass", ["mailList"]), ("accountStatus", ["active"]),
                       ("accessPolicy", ["domain"]),
                       ("listAllowedUser", [".com"])]
    conn_vmail := connNone
    sender_without_ext := "someone@x.com"
    sender_domain := "x.com"
    recipient_domain := "d.com" }

/-- A login-mismatch configuration: LDAP backend, strict-alias mode on,
empty allow-list, mlmmjadmin API configured. -/
def stLdap : LoginMismatch.RSettings :=
  { backend := "ldap"
    CHECK_FORGED_SENDER := true
    ALLOWED_FORGED_SENDERS := []
    ALLOWED_LOGIN_MISMATCH_SENDERS := []
    ALLOWED_LOGIN_MISMATCH_STRICTLY := true
    ALLOWED_LOGIN_MISMATCH_LIST_MEMBER := false
    CHECK_SPF_IF_LOGIN_MISMATCH := false
    mlmmjadmin_api_auth_token := "token123"
    mlmmjadmin_api_endpoint := "http://127.0.0.1:7790/api" }

/-- Oracles for the C8 fixtures: no trusted clients, no strict-alias match,
the sender is recognised as an active mlmmj list, and the membership API
call fails. -/
def oApiErr : LoginMismatch.RSOracles :=
  { is_trusted_client := fun _ => false
    is_local_domain := fun _ => false
    is_allowed_server_in_spf := fun _ _ => false
    get_account_ldif_dn := fun account f =>
      if account == "mllist@d.com"
          && f == "(&(objectClass=mailList)(enabledService=mlmmj)(accountStatus=active))" then
        "mail=mllist@d.com,ou=Groups"
      else ""
    sql_user_alias_row := fun _ _ _ => false
    sql_alias_domain_row := fun _ _ => false
    sql_list_member_row := fun _ _ => false
    sql_maillist_row := fun _ => false
    mlmmj_api := fun _ => Except.error "ConnectionError" }

/-- Oracles identical to `oApiErr` except that the membership API call
succeeds with `_success = true`. -/
def oApiOk : LoginMismatch.RSOracles :=
  { oApiErr with mlmmj_api := fun _ => Except.ok [("_success", true)] }

/-- An authenticated transaction whose sender is the mlmmj list address. -/
def kwList : LoginMismatch.RKwargs :=
  { sasl_username := "member@d.com"
    sasl_username_domain := "d.com"
    sender_without_ext := "mllist@d.com"
    recipient_domain := "d.com"
    client_address := "198.51.100.7" }

/-- An unauthenticated transaction from an untrusted client with a local
sender domain. -/
def kwUnauth : LoginMismatch.RKwargs :=
  { sasl_username := ""
    sasl_username_domain := ""
    sender_without_ext := "boss@d.com"
    recipient_domain := "d.com"
    client_address := "203.0.113.5" }

/-- An authenticated mismatch: `alice@d.com` sending as `bob@d.com` with no
bypass configuration at all. -/
def kwMismatch : LoginMismatch.RKwargs :=
  { sasl_username := "alice@d.com"
    sasl_username_domain := "d.com"
    sender_without_ext := "bob@d.com"
    recipient_domain := "d.com"
    client_address := "198.51.100.7" }

/-- A configuration with no allow-list, strict-alias off and list-member
off. -/
def stNoBypass : LoginMismatch.RSettings :=
  { stLdap with
    ALLOWED_LOGIN_MISMATCH_STRICTLY := false
    ALLOWED_LOGIN_MISMATCH_LIST_MEMBER := false }

end Fixtures

namespace Modeler

theorem pluginLoop_spec (ps : String) (sd : SessionData) (l : List Plugin) :
    pluginLoop ps sd l =
      match (applicablePlugins ps l).find? (fun p => !isDefaultAction (apply_plugin p sd)) with
      | some p =>
          (some (apply_plugin p sd),
           ((applicablePlugins ps l).takeWhile
              (fun q => isDefaultAction (apply_plugin q sd))).map Plugin.name ++ [p.name])
      | none => (none, (applicablePlugins ps l).map Plugin.name) := by
  induction l with
  | nil => simp [pluginLoop, applicablePlugins]
  | cons p rest ih =>
    by_cases hc : ps ∈ p.SMTP_PROTOCOL_STATE.getD ["RCPT"]
    · have h2 : applicablePlugins ps (p :: rest) = p :: applicablePlugins ps rest := by
        simp [applicablePlugins, hc]
      by_cases hd : (isDefaultAction (apply_plugin p sd) : Bool)
      · have h1 : pluginLoop ps sd (p :: rest) =
            ((pluginLoop ps sd rest).1, p.name :: (pluginLoop ps sd rest).2) := by
          simp only [pluginLoop]
          simp only [isDefaultAction] at hd
          simp [hc, hd]
        rw [h1, h2, ih]
        cases hfind : (applicablePlugins ps rest).find?
            (fun q => !isDefaultAction (apply_plugin q sd)) with
        | none => simp [List.find?, List.takeWhile, hd, hfind]
        | some q => simp [List.find?, List.takeWhile, hd, hfind]
      · have h1 : pluginLoop ps sd (p :: rest) = (some (apply_plugin p sd), [p.name]) := by
          simp only [pluginLoop]
          simp only [isDefaultAction] at hd
          simp [hc, hd]
        have hd' : pyStartsWith (apply_plugin p sd) "DUNNO" = false := by
          simpa [isDefaultAction] using hd
        rw [h1, h2]
        simp [List.find?, List.takeWhile, isDefaultAction, hd']
    · have h1 : pluginLoop ps sd (p :: rest) = pluginLoop ps sd rest := by
        simp only [pluginLoop]
        simp [hc]
      have h2 : applicablePlugins ps (p :: rest) = applicablePlugins ps rest := by
        simp [applicablePlugins, hc]
      rw [h1, h2, ih]

open Fixtures in
/-- C1: Dispatcher short-circuit correctness: for every non-empty plugin
chain and every transaction context, `Modeler.handle_data` returns the
verdict of the first plugin (in configured order, restricted to plugins
whose declared protocol phases include the context phase) whose verdict is
not DEFAULT, and no later plugin runs (the invoked-plugin trace stops at
the first non-DEFAULT plugin); if every applicable plugin returns DEFAULT,
it returns the global default verdict; if the plugin list is empty it
returns DEFAULT with a no-enabled-plugins reason immediately. -/
theorem claim_C1_dispatcher_short_circuit
    (pool : ConnPool) (sd : SessionData) (plugins : List Plugin) :
    (plugins = [] →
      handle_data pool sd plugins
        = (SMTP_ACTIONS "default" ++ " No enabled plugins", [], noCloseRecord)) ∧
    (plugins ≠ [] →
      match (applicablePlugins (pyUpper sd.protocol_state) plugins).find?
          (fun p => !isDefaultAction (apply_plugin p sd)) with
      | some p =>
        (handle_data pool sd plugins).1 = apply_plugin p sd ∧
        (handle_data pool sd plugins).2.1 =
          ((applicablePlugins (pyUpper sd.protocol_state) plugins).takeWhile
            (fun q => isDefaultAction (apply_plugin q sd))).map Plugin.name ++ [p.name]
      | none =>
        (handle_data pool sd plugins).1 = SMTP_ACTIONS "default" ∧
        (handle_data pool sd plugins).2.1 =
          (applicablePlugins (pyUpper sd.protocol_state) plugins).map Plugin.name) := by
  constructor
  · intro h
    subst h
    rfl
  · intro h
    have hne : plugins.isEmpty = false := by
      cases plugins with
      | nil => exact absurd rfl h
      | cons a l => rfl
    cases hfind : (applicablePlugins (pyUpper sd.protocol_state) plugins).find?
        (fun p => !isDefaultAction (apply_plugin p sd)) with
    | some p =>
      constructor <;> simp [handle_data, hne, pluginLoop_spec, hfind]
    | none =>
      constructor <;> simp [handle_data, hne, pluginLoop_spec, hfind]

open Fixtures in
/-- Witness for C1: a concrete chain (DUNNO plugin, off-phase plugin, two
rejecting plugins) where the first rejecting plugin wins and the second is
never invoked. -/
theorem claim_C1_dispatcher_short_circuit_witness :
    ([pluginDunno, pluginDataOnly, pluginRejectA, pluginRejectB] ≠ ([] : List Plugin)) ∧
    (handle_data poolFull sdRcpt [pluginDunno, pluginDataOnly, pluginRejectA, pluginRejectB]).1
      = "REJECT first hit" ∧
    (handle_data poolFull sdRcpt [pluginDunno, pluginDataOnly, pluginRejectA, pluginRejectB]).2.1
      = ["plugin_dunno", "plugin_reject_a"] := by
  have h := (claim_C1_dispatcher_short_circuit poolFull sdRcpt
    [pluginDunno, pluginDataOnly, pluginRejectA, pluginRejectB]).2 (by simp)
  exact ⟨by simp, h.1, h.2⟩

open Fixtures in
/-- Counterexample for C2: with all three backends configured and a single
rejecting plugin, `handle_data` returns early with the plugin verdict and
no acquired connection has been closed, contradicting the claim that the
connections are released even when it returns early. -/
theorem claim_C2_counterexample :
    (handle_data poolFull sdRcpt [pluginRejectA]).1 = "REJECT first hit" ∧
    (handle_data poolFull sdRcpt [pluginRejectA]).2.2 = noCloseRecord :=
  ⟨rfl, rfl⟩

/-- C2 amended: the connections are released only on the fall-through path
where every applicable plugin returned a DEFAULT verdict; when a plugin
produces a non-DEFAULT verdict the dispatcher returns without closing any
connection; and even on the fall-through path, when the iredapd handle is
absent the close block stops early (the failure is silently swallowed by a
bare `except: pass`, not logged), leaving the amavisd handle unclosed as
well. -/
theorem claim_C2_amended (pool : ConnPool) (sd : SessionData) (plugins : List Plugin) :
    (((applicablePlugins (pyUpper sd.protocol_state) plugins).find?
        (fun p => !isDefaultAction (apply_plugin p sd))).isSome →
      (handle_data pool sd plugins).2.2 = noCloseRecord) ∧
    (plugins ≠ [] →
      (applicablePlugins (pyUpper sd.protocol_state) plugins).find?
        (fun p => !isDefaultAction (apply_plugin p sd)) = none →
      (handle_data pool sd plugins).2.2.vmail_closed = true ∧
      (handle_data pool sd plugins).2.2.iredapd_closed = pool.has_iredapd ∧
      (handle_data pool sd plugins).2.2.amavisd_closed
        = (pool.has_iredapd && pool.has_amavisd)) := by
  constructor
  · intro hs
    cases plugins with
    | nil => simp [applicablePlugins] at hs
    | cons a l =>
      cases hfind : (applicablePlugins (pyUpper sd.protocol_state) (a :: l)).find?
          (fun p => !isDefaultAction (apply_plugin p sd)) with
      | none => rw [hfind] at hs; simp at hs
      | some p => simp [handle_data, pluginLoop_spec, hfind]
  · intro hne hfind
    cases plugins with
    | nil => exact absurd rfl hne
    | cons a l =>
      have hd : (handle_data pool sd (a :: l)).2.2 = closeConnections pool := by
        simp [handle_data, pluginLoop_spec, hfind]
      rw [hd]
      unfold closeConnections
      cases hi : pool.has_iredapd <;> simp

open Fixtures in
/-- Witness for C2 amended: an all-DEFAULT chain over a pool without the
iredapd handle closes the vmail connection but leaves the amavisd
connection unclosed. -/
theorem claim_C2_amended_witness :
    (handle_data poolNoIredapd sdRcpt [pluginDunno]).2.2.vmail_closed = true ∧
    (handle_data poolNoIredapd sdRcpt [pluginDunno]).2.2.amavisd_closed = false := by
  have h := (claim_C2_amended poolNoIredapd sdRcpt [pluginDunno]).2 (by simp) rfl
  exact ⟨h.1, h.2.2⟩

end Modeler

theorem contains_isEmpty_false (l : List String) (x : String)
    (h : l.contains x = true) : l.isEmpty = false := by
  cases l with
  | nil => simp at h
  | cons a t => rfl

theorem startsWithDunno_append (r : String) :
    pyStartsWith (SMTP_ACTIONS "default" ++ r) "DUNNO" = true := by
  simp [pyStartsWith, SMTP_ACTIONS, String.data_append, List.isPrefixOf_iff_prefix]

namespace MLAccessPolicy

theorem restriction_policy_path (basedn : String) (kw : MLKwargs)
    (ocs : List String) (policy : String)
    (h1 : (kw.sasl_username == kw.recipient_without_ext) = false)
    (h2 : kw.recipient_ldif.isEmpty = false)
    (h3 : Ldif.get? kw.recipient_ldif "objectClass" = some ocs)
    (h4 : ocs.contains "mailList" = true)
    (h5 : Ldif.get? kw.recipient_ldif "accountStatus" = some ["active"])
    (h6 : Ldif.get? kw.recipient_ldif "accessPolicy" = some [policy])
    (hlow : pyLower policy = policy)
    (hpub : (policy == MAILLIST_POLICY_PUBLIC) = false)
    (hleg : (policy == "allowedonly") = false)
    (hmlj : ((Ldif.getD kw.recipient_ldif "enabledService" []).contains "mlmmj"
        && (policy == MAILLIST_POLICY_MEMBERSONLY
            || policy == MAILLIST_POLICY_MODERATORS)) = false) :
    restriction basedn kw = ml_after_bypass basedn kw policy := by
  simp only [restriction, Ldif.getItem, h3, Ldif.getD, h5, h6, h1, h2, h4,
    Option.getD, List.head?, hlow, hpub, hleg, hmlj]
  simp
  intro hm hp
  exfalso
  have hc : (Ldif.getD kw.recipient_ldif "enabledService" []).contains "mlmmj" = true := by
    simpa [Ldif.getD] using hm
  rw [hc] at hmlj
  rcases hp with hp | hp <;> rw [hp] at hmlj <;> simp at hmlj

theorem after_bypass_dispatch (basedn : String) (kw : MLKwargs) (policy : String)
    (h7 : (Ldif.getD kw.recipient_ldif "listModerator" []).contains kw.sender_without_ext
      = false)
    (h8 : (Ldif.getD kw.recipient_ldif "listOwner" []).contains kw.sender_without_ext
      = false)
    (h9 : (Ldif.getD kw.recipient_ldif "listAllowedUser" []).contains kw.sender_without_ext
      = false)
    (h10 : (Ldif.getD kw.recipient_ldif "listAllowedUser" []).contains kw.sender_domain
      = false)
    (h11 : (Ldif.getD kw.recipient_ldif "listAllowedUser" []).contains
      ("*@" ++ kw.sender_domain) = false)
    (h12 : (possible_sender_domains kw.sender_domain).any
      (fun d => (Ldif.getD kw.recipient_ldif "listAllowedUser" []).contains d) = false) :
    ml_after_bypass basedn kw policy
      = ml_policy_dispatch basedn kw policy
          (kw.conn_vmail.primary_and_alias_domains kw.recipient_domain)
          (Ldif.getD kw.recipient_ldif "listAllowedUser" []) := by
  simp only [ml_after_bypass, h7, h8, h9, h10, h11, h12]
  simp

/-- C9: for every recipient entry that is an active mailing list and whose
`accessPolicy` attribute is present with zero values, the policy read
(indexing element 0 of the value list) fails with an index error instead of
treating the policy as PUBLIC, and the resolver produces no verdict. -/
theorem claim_C9_empty_access_policy (basedn : String) (kw : MLKwargs) (ocs : List String)
    (h1 : (kw.sasl_username == kw.recipient_without_ext) = false)
    (h2 : kw.recipient_ldif.isEmpty = false)
    (h3 : Ldif.get? kw.recipient_ldif "objectClass" = some ocs)
    (h4 : ocs.contains "mailList" = true)
    (h5 : Ldif.get? kw.recipient_ldif "accountStatus" = some ["active"])
    (h6 : Ldif.get? kw.recipient_ldif "accessPolicy" = some []) :
    restriction basedn kw = Except.error "IndexError: list index out of range" := by
  simp only [restriction, Ldif.getItem, h3, Ldif.getD, h5, h6, h1, h2, h4,
    Option.getD, List.head?]
  simp

open Fixtures in
/-- Witness for C9: a concrete active list entry with `accessPolicy` mapped
to zero values. -/
theorem claim_C9_empty_access_policy_witness :
    restriction basedn0 kwEmptyPolicy = Except.error "IndexError: list index out of range" :=
  claim_C9_empty_access_policy basedn0 kwEmptyPolicy ["mailList"] rfl rfl rfl rfl rfl rfl

open Fixtures in
/-- Counterexample for C4: on an active list whose `accessPolicy` attribute
has zero values, `restriction` raises (the embedding returns `Except.error`)
rather than returning any verdict, so it is false that the resolver always
returns a DEFAULT or REJECT-NOT-AUTHORIZED verdict and never raises. -/
theorem claim_C4_counterexample :
    restriction basedn0 kwEmptyPolicy = Except.error "IndexError: list index out of range" ∧
    ¬ ∃ v, restriction basedn0 kwEmptyPolicy = Except.ok v := by
  refine ⟨rfl, ?_⟩
  rintro ⟨v, hv⟩
  rw [show restriction basedn0 kwEmptyPolicy
      = Except.error "IndexError: list index out of range" from rfl] at hv
  exact Except.noConfusion hv

open Fixtures in
/-- C3's failing input evaluated: the classification loop mutates the list
while iterating, so of the two local allow-list addresses `u1@d.com` and
`u2@d.com` only `u1@d.com` reaches `_users` (`u2@d.com` is skipped and left
behind), and consequently a sender using `u2`'s registered alias address
`alias2@d.com` is rejected even though the per-user alias expansion should
have admitted it. -/
theorem claim_C3_moderators_classification_skip :
    moderatorsClassify "d.com" 2 ["u1@d.com", "u2@d.com"] 0 [] []
      = (["u2@d.com"], ["u1@d.com"], []) ∧
    restriction basedn0 kwModerators = Except.ok (SMTP_ACTIONS "reject_not_authorized") :=
  ⟨rfl, rfl⟩

open Fixtures in
/-- Counterexample for C10: for the sender domain `x.com` the enumerated
suffix set is only `x.com` and `.x.com` — the bare top-level suffix `.com`
is never tested — so an allow-list entry `.com` does not grant DEFAULT to a
sender under `x.com` (here the DOMAIN policy then rejects). -/
theorem claim_C10_counterexample :
    possible_sender_domains "x.com" = ["x.com", ".x.com"] ∧
    (possible_sender_domains "x.com").contains ".com" = false ∧
    restriction basedn0 kwDotCom = Except.ok (SMTP_ACTIONS "reject_not_authorized") :=
  ⟨rfl, rfl, rfl⟩

theorem possibleLoop_spec (parts : List String) : ∀ (i : Nat) (acc : List String),
    possibleLoop i acc parts
      = acc ++ (List.range ((parts.length - i + 1) / 2)).map
          (fun k => "." ++ String.intercalate "." (parts.drop k)) := by
  induction parts with
  | nil =>
    intro i acc
    have h0 : ((List.length ([] : List String)) - i + 1) / 2 = 0 := by
      simp
    rw [h0]
    simp [possibleLoop]
  | cons p ps ih =>
    intro i acc
    by_cases h : i < (p :: ps).length
    · have hstep : possibleLoop i acc (p :: ps)
          = possibleLoop (i + 1) (acc ++ ["." ++ String.intercalate "." (p :: ps)]) ps := by
        simp only [possibleLoop]
        rw [if_pos h]
      rw [hstep, ih]
      have hcount : ((p :: ps).length - i + 1) / 2 = (ps.length - (i + 1) + 1) / 2 + 1 := by
        simp only [List.length_cons] at h ⊢
        omega
      rw [hcount, List.range_succ_eq_map, List.map_cons, List.map_map]
      simp [Function.comp, List.append_assoc]
    · have hstep : possibleLoop i acc (p :: ps) = acc := by
        simp only [possibleLoop]
        rw [if_neg h]
      have hcount : ((p :: ps).length - i + 1) / 2 = 0 := by
        simp only [List.length_cons] at h ⊢
        omega
      rw [hstep, hcount]
      simp

/-- C10 amended: the set of dotted suffixes tested against the allow-list
for a sender domain with `n` labels consists of the full-domain leading-dot
form and then only the first `⌈n/2⌉` suffixes (the iteration pops the list
it ranges over, halving the walk): `.l1.l2...ln`, `.l2...ln`, down to
`.l⌈n/2⌉...ln`.  In particular for any multi-label domain the bare
top-level form `.ln` is absent, so an entry such as `.com` matches only a
sender whose domain is literally `com`. -/
theorem claim_C10_amended (d : String) :
    possible_sender_domains d
      = d :: (List.range (((pySplitChar '.' d).length + 1) / 2)).map
          (fun k => "." ++ String.intercalate "." ((pySplitChar '.' d).drop k)) := by
  unfold possible_sender_domains
  rw [possibleLoop_spec]
  simp

/-- C5: in the MEMBERS_AND_MODERATORS_ONLY branch, a failure of the
combined members-and-moderators query is caught and mapped to DEFAULT with
a diagnostic reason (fail-open); on success the branch returns DEFAULT iff
the sender is among the collected `mail`/`shadowAddress`/`listAllowedUser`
values, else REJECT-NOT-AUTHORIZED. -/
theorem claim_C5_mamo_fail_open (basedn : String) (kw : MLKwargs) (ocs : List String)
    (h1 : (kw.sasl_username == kw.recipient_without_ext) = false)
    (h2 : kw.recipient_ldif.isEmpty = false)
    (h3 : Ldif.get? kw.recipient_ldif "objectClass" = some ocs)
    (h4 : ocs.contains "mailList" = true)
    (h5 : Ldif.get? kw.recipient_ldif "accountStatus" = some ["active"])
    (h6 : Ldif.get? kw.recipient_ldif "accessPolicy"
      = some [MAILLIST_POLICY_MEMBERSANDMODERATORSONLY])
    (h7 : (Ldif.getD kw.recipient_ldif "listModerator" []).contains kw.sender_without_ext
      = false)
    (h8 : (Ldif.getD kw.recipient_ldif "listOwner" []).contains kw.sender_without_ext
      = false)
    (h9 : (Ldif.getD kw.recipient_ldif "listAllowedUser" []).contains kw.sender_without_ext
      = false)
    (h10 : (Ldif.getD kw.recipient_ldif "listAllowedUser" []).contains kw.sender_domain
      = false)
    (h11 : (Ldif.getD kw.recipient_ldif "listAllowedUser" []).contains
      ("*@" ++ kw.sender_domain) = false)
    (h12 : (possible_sender_domains kw.sender_domain).any
      (fun d => (Ldif.getD kw.recipient_ldif "listAllowedUser" []).contains d) = false) :
    (∀ e, kw.conn_vmail.search_s ("domainName=" ++ kw.recipient_domain ++ "," ++ basedn) 2
        (mamoFilter kw.recipient_without_ext) ["mail", "shadowAddress", "listAllowedUser"]
        = Except.error e →
      restriction basedn kw = Except.ok (SMTP_ACTIONS "default"
        ++ " (Error while querying allowed senders of mailing list (access policy: "
        ++ MAILLIST_POLICY_MEMBERSANDMODERATORSONLY ++ "): " ++ e ++ ")")) ∧
    (∀ qr, kw.conn_vmail.search_s ("domainName=" ++ kw.recipient_domain ++ "," ++ basedn) 2
        (mamoFilter kw.recipient_without_ext) ["mail", "shadowAddress", "listAllowedUser"]
        = Except.ok qr →
      restriction basedn kw = Except.ok
        (if (collectAttrs ["mail", "shadowAddress", "listAllowedUser"] qr).contains
            kw.sender_without_ext
         then SMTP_ACTIONS "default"
         else SMTP_ACTIONS "reject_not_authorized")) := by
  have hpath : restriction basedn kw
      = ml_policy_dispatch basedn kw MAILLIST_POLICY_MEMBERSANDMODERATORSONLY
          (kw.conn_vmail.primary_and_alias_domains kw.recipient_domain)
          (Ldif.getD kw.recipient_ldif "listAllowedUser" []) := by
    rw [restriction_policy_path basedn kw ocs MAILLIST_POLICY_MEMBERSANDMODERATORSONLY
        h1 h2 h3 h4 h5 h6 rfl rfl rfl
        (by rw [show (MAILLIST_POLICY_MEMBERSANDMODERATORSONLY
              == MAILLIST_POLICY_MEMBERSONLY) = false from rfl,
            show (MAILLIST_POLICY_MEMBERSANDMODERATORSONLY
              == MAILLIST_POLICY_MODERATORS) = false from rfl]; simp),
      after_bypass_dispatch basedn kw _ h7 h8 h9 h10 h11 h12]
  have hbranch : ml_policy_dispatch basedn kw MAILLIST_POLICY_MEMBERSANDMODERATORSONLY
      (kw.conn_vmail.primary_and_alias_domains kw.recipient_domain)
      (Ldif.getD kw.recipient_ldif "listAllowedUser" [])
      = match kw.conn_vmail.search_s ("domainName=" ++ kw.recipient_domain ++ "," ++ basedn)
          2 (mamoFilter kw.recipient_without_ext) ["mail", "shadowAddress", "listAllowedUser"] with
        | Except.error e =>
          Except.ok (SMTP_ACTIONS "default"
            ++ " (Error while querying allowed senders of mailing list (access policy: "
            ++ MAILLIST_POLICY_MEMBERSANDMODERATORSONLY ++ "): " ++ e ++ ")")
        | Except.ok qr =>
          if (collectAttrs ["mail", "shadowAddress", "listAllowedUser"] qr).contains
              kw.sender_without_ext then
            Except.ok (SMTP_ACTIONS "default")
          else
            Except.ok (SMTP_ACTIONS "reject_not_authorized") := by
    simp only [ml_policy_dispatch,
      show (MAILLIST_POLICY_MEMBERSANDMODERATORSONLY == MAILLIST_POLICY_DOMAIN)
        = false from rfl,
      show (MAILLIST_POLICY_MEMBERSANDMODERATORSONLY == MAILLIST_POLICY_SUBDOMAIN)
        = false from rfl,
      show (MAILLIST_POLICY_MEMBERSANDMODERATORSONLY == MAILLIST_POLICY_MEMBERSONLY)
        = false from rfl,
      show (MAILLIST_POLICY_MEMBERSANDMODERATORSONLY
        == MAILLIST_POLICY_MEMBERSANDMODERATORSONLY) = true from rfl]
    simp
  constructor
  · intro e he
    rw [hpath, hbranch, he]
  · intro qr hq
    rw [hpath, hbranch, hq, apply_ite Except.ok]

theorem ml_moderators_verdicts (basedn : String) (kw : MLKwargs)
    (eas : List String) (dnr : String) (v : String)
    (h : ml_moderators basedn kw eas dnr = Except.ok v) :
    Modeler.isDefaultAction v = true ∨ v = SMTP_ACTIONS "reject"
      ∨ v = SMTP_ACTIONS "reject_not_authorized" := by
  simp only [ml_moderators] at h
  repeat' split at h
  all_goals
    first
      | exact Except.noConfusion h
      | (injection h with h'
         subst h'
         first
           | exact Or.inr (Or.inr rfl)
           | exact Or.inr (Or.inl rfl)
           | exact Or.inl rfl)

theorem ml_policy_dispatch_verdicts (basedn : String) (kw : MLKwargs)
    (policy : String) (vrd eas : List String) (v : String)
    (h : ml_policy_dispatch basedn kw policy vrd eas = Except.ok v) :
    Modeler.isDefaultAction v = true ∨ v = SMTP_ACTIONS "reject"
      ∨ v = SMTP_ACTIONS "reject_not_authorized" := by
  simp only [ml_policy_dispatch] at h
  repeat' split at h
  all_goals
    first
      | exact Except.noConfusion h
      | exact ml_moderators_verdicts _ _ _ _ _ h
      | (injection h with h'
         subst h'
         first
           | exact Or.inr (Or.inr rfl)
           | exact Or.inr (Or.inl rfl)
           | exact Or.inl rfl)

theorem ml_after_bypass_verdicts (basedn : String) (kw : MLKwargs)
    (policy : String) (v : String)
    (h : ml_after_bypass basedn kw policy = Except.ok v) :
    Modeler.isDefaultAction v = true ∨ v = SMTP_ACTIONS "reject"
      ∨ v = SMTP_ACTIONS "reject_not_authorized" := by
  simp only [ml_after_bypass] at h
  repeat' split at h
  all_goals
    first
      | exact Except.noConfusion h
      | exact ml_policy_dispatch_verdicts _ _ _ _ _ _ h
      | (injection h with h'
         subst h'
         first
           | exact Or.inr (Or.inr rfl)
           | exact Or.inr (Or.inl rfl)
           | exact Or.inl rfl)

/-- C4 amended: on every run that returns a verdict, `restriction` returns
a DEFAULT (DUNNO-prefixed) verdict, the generic REJECT (used for the
disabled-list case), or REJECT-NOT-AUTHORIZED — never any other verdict
kind and never DEFER; but it does not always return a verdict: it raises on
an `accessPolicy` attribute with zero values (see the counterexample) and
propagates directory-query failures of the MEMBERS_ONLY and MODERATORS
branches. -/
theorem claim_C4_amended (basedn : String) (kw : MLKwargs) (v : String)
    (h : restriction basedn kw = Except.ok v) :
    Modeler.isDefaultAction v = true ∨ v = SMTP_ACTIONS "reject"
      ∨ v = SMTP_ACTIONS "reject_not_authorized" := by
  simp only [restriction] at h
  repeat' split at h
  all_goals
    first
      | exact Except.noConfusion h
      | exact ml_after_bypass_verdicts _ _ _ _ h
      | (injection h with h'
         subst h'
         first
           | exact Or.inr (Or.inr rfl)
           | exact Or.inr (Or.inl rfl)
           | exact Or.inl rfl)

open Fixtures in
/-- Witness for C4 amended: the PUBLIC fixture returns a verdict, which the
amended theorem classifies. -/
theorem claim_C4_amended_witness :
    Modeler.isDefaultAction
        (SMTP_ACTIONS "default" ++ " (Access policy: " ++ MAILLIST_POLICY_PUBLIC
          ++ ", no restriction)") = true
      ∨ (SMTP_ACTIONS "default" ++ " (Access policy: " ++ MAILLIST_POLICY_PUBLIC
          ++ ", no restriction)") = SMTP_ACTIONS "reject"
      ∨ (SMTP_ACTIONS "default" ++ " (Access policy: " ++ MAILLIST_POLICY_PUBLIC
          ++ ", no restriction)") = SMTP_ACTIONS "reject_not_authorized" :=
  claim_C4_amended basedn0 kwPublic _ rfl

open Fixtures in
/-- Witness for C5: a concrete MEMBERS_AND_MODERATORS_ONLY list over a
failing directory resolves to DEFAULT with the diagnostic reason. -/
theorem claim_C5_mamo_fail_open_witness :
    restriction basedn0 kwMamo = Except.ok (SMTP_ACTIONS "default"
      ++ " (Error while querying allowed senders of mailing list (access policy: "
      ++ MAILLIST_POLICY_MEMBERSANDMODERATORSONLY ++ "): " ++ "LDAP SERVER_DOWN" ++ ")") :=
  (claim_C5_mamo_fail_open basedn0 kwMamo ["mailList"]
    rfl rfl rfl rfl rfl rfl rfl rfl rfl rfl rfl rfl).1 "LDAP SERVER_DOWN" rfl

end MLAccessPolicy

namespace LoginMismatch

theorem restriction_auth (st : RSettings) (o : RSOracles) (kw : RKwargs)
    (sn sd : String)
    (hsasl : kw.sasl_username.isEmpty = false)
    (hsend : kw.sender_without_ext.isEmpty = false)
    (hsplit : rs_split_sender kw.sender_without_ext = Except.ok (sn, sd)) :
    restriction st o kw = Except.ok (rs_auth st o kw sn sd) := by
  simp only [restriction, hsplit, hsasl, hsend]
  simp

theorem restriction_unauth (st : RSettings) (o : RSOracles) (kw : RKwargs)
    (sn sd : String)
    (hsasl : kw.sasl_username.isEmpty = true)
    (hsplit : rs_split_sender kw.sender_without_ext = Except.ok (sn, sd)) :
    restriction st o kw = Except.ok (rs_unauth st o kw sn sd) := by
  simp only [restriction, hsplit, hsasl]
  simp

/-- C6: authenticated with `sender != sasl_username`: with no allow-list,
strict-alias off and list-member off the resolver rejects immediately; an
allow-list entry equal to the identity or to its bare domain grants DEFAULT
for any sender; an `@domain` / `@.` entry grants DEFAULT only when the
sender domain equals the identity domain — in both directions: domains
equal yields DEFAULT (conjunct 4), and domains differing yields no DEFAULT
from the allow-list, the evaluation falling through to the remaining
checks (conjunct 7 ends in the mismatch reject when no other mode is
enabled, conjunct 8 still reaches a positive strict-alias match); and an
allow-list non-match does not reject by itself — the strict-alias /
list-member backend checks still run afterward (shown for a positive LDAP
strict-alias match and a positive SQL per-user alias row). -/
theorem claim_C6_login_mismatch_allow_list (st : RSettings) (o : RSOracles) (kw : RKwargs)
    (sn sd : String)
    (hsasl : kw.sasl_username.isEmpty = false)
    (hsend : kw.sender_without_ext.isEmpty = false)
    (hsplit : rs_split_sender kw.sender_without_ext = Except.ok (sn, sd))
    (hne : (kw.sender_without_ext == kw.sasl_username) = false) :
    (st.ALLOWED_LOGIN_MISMATCH_SENDERS = [] →
      st.ALLOWED_LOGIN_MISMATCH_STRICTLY = false →
      st.ALLOWED_LOGIN_MISMATCH_LIST_MEMBER = false →
      restriction st o kw = Except.ok action_reject) ∧
    (st.ALLOWED_LOGIN_MISMATCH_SENDERS.contains kw.sasl_username = true →
      restriction st o kw = Except.ok (SMTP_ACTIONS "default")) ∧
    (st.ALLOWED_LOGIN_MISMATCH_SENDERS.contains kw.sasl_username = false →
      st.ALLOWED_LOGIN_MISMATCH_SENDERS.contains kw.sasl_username_domain = true →
      restriction st o kw = Except.ok (SMTP_ACTIONS "default")) ∧
    (st.ALLOWED_LOGIN_MISMATCH_SENDERS.contains kw.sasl_username = false →
      st.ALLOWED_LOGIN_MISMATCH_SENDERS.contains kw.sasl_username_domain = false →
      (st.ALLOWED_LOGIN_MISMATCH_SENDERS.contains ("@" ++ kw.sasl_username_domain)
        || st.ALLOWED_LOGIN_MISMATCH_SENDERS.contains "@.") = true →
      (kw.sasl_username_domain == sd) = true →
      restriction st o kw = Except.ok (SMTP_ACTIONS "default")) ∧
    (st.ALLOWED_LOGIN_MISMATCH_SENDERS.contains kw.sasl_username = false →
      st.ALLOWED_LOGIN_MISMATCH_SENDERS.contains kw.sasl_username_domain = false →
      st.ALLOWED_LOGIN_MISMATCH_SENDERS.contains ("@" ++ kw.sasl_username_domain) = false →
      st.ALLOWED_LOGIN_MISMATCH_SENDERS.contains "@." = false →
      st.ALLOWED_LOGIN_MISMATCH_STRICTLY = true →
      st.backend = "ldap" →
      (o.get_account_ldif_dn kw.sasl_username
          (ldapQueryFilter st kw.sasl_username kw.sender_without_ext)).isEmpty = false →
      restriction st o kw = Except.ok (SMTP_ACTIONS "default")) ∧
    (st.ALLOWED_LOGIN_MISMATCH_SENDERS.contains kw.sasl_username = false →
      st.ALLOWED_LOGIN_MISMATCH_SENDERS.contains kw.sasl_username_domain = false →
      st.ALLOWED_LOGIN_MISMATCH_SENDERS.contains ("@" ++ kw.sasl_username_domain) = false →
      st.ALLOWED_LOGIN_MISMATCH_SENDERS.contains "@." = false →
      (st.backend = "mysql" ∨ st.backend = "pgsql") →
      st.ALLOWED_LOGIN_MISMATCH_STRICTLY = true →
      o.sql_user_alias_row kw.sender_without_ext kw.sasl_username
        ((pySplitChar '@' kw.sasl_username).headD "" ++ "+%@" ++ kw.sasl_username_domain)
        = true →
      restriction st o kw = Except.ok (SMTP_ACTIONS "default")) ∧
    (st.ALLOWED_LOGIN_MISMATCH_SENDERS.contains kw.sasl_username = false →
      st.ALLOWED_LOGIN_MISMATCH_SENDERS.contains kw.sasl_username_domain = false →
      (st.ALLOWED_LOGIN_MISMATCH_SENDERS.contains ("@" ++ kw.sasl_username_domain)
        || st.ALLOWED_LOGIN_MISMATCH_SENDERS.contains "@.") = true →
      (kw.sasl_username_domain == sd) = false →
      st.ALLOWED_LOGIN_MISMATCH_STRICTLY = false →
      st.ALLOWED_LOGIN_MISMATCH_LIST_MEMBER = false →
      restriction st o kw = Except.ok action_reject) ∧
    (st.ALLOWED_LOGIN_MISMATCH_SENDERS.contains kw.sasl_username = false →
      st.ALLOWED_LOGIN_MISMATCH_SENDERS.contains kw.sasl_username_domain = false →
      (st.ALLOWED_LOGIN_MISMATCH_SENDERS.contains ("@" ++ kw.sasl_username_domain)
        || st.ALLOWED_LOGIN_MISMATCH_SENDERS.contains "@.") = true →
      (kw.sasl_username_domain == sd) = false →
      st.ALLOWED_LOGIN_MISMATCH_STRICTLY = true →
      st.backend = "ldap" →
      (o.get_account_ldif_dn kw.sasl_username
          (ldapQueryFilter st kw.sasl_username kw.sender_without_ext)).isEmpty = false →
      restriction st o kw = Except.ok (SMTP_ACTIONS "default")) := by
  have hauth := restriction_auth st o kw sn sd hsasl hsend hsplit
  refine ⟨?_, ?_, ?_, ?_, ?_, ?_, ?_, ?_⟩
  · intro ha1 ha2 ha3
    have hv : rs_auth st o kw sn sd = action_reject := by
      simp [rs_auth, hne, ha1, ha2, ha3]
    rw [hauth, hv]
  · intro hb
    have hie := contains_isEmpty_false _ _ hb
    have hb' : kw.sasl_username ∈ st.ALLOWED_LOGIN_MISMATCH_SENDERS := by simpa using hb
    have hv : rs_auth st o kw sn sd = SMTP_ACTIONS "default" := by
      simp [rs_auth, hne, hie, rs_allowed_senders_check, hb']
    rw [hauth, hv]
  · intro hc1 hc2
    have hie := contains_isEmpty_false _ _ hc2
    have hc1' : kw.sasl_username ∉ st.ALLOWED_LOGIN_MISMATCH_SENDERS := by simpa using hc1
    have hc2' : kw.sasl_username_domain ∈ st.ALLOWED_LOGIN_MISMATCH_SENDERS := by
      simpa using hc2
    have hv : rs_auth st o kw sn sd = SMTP_ACTIONS "default" := by
      simp [rs_auth, hne, hie, rs_allowed_senders_check, hc1', hc2']
    rw [hauth, hv]
  · intro hd1 hd2 hd3 hd4
    have hie : st.ALLOWED_LOGIN_MISMATCH_SENDERS.isEmpty = false := by
      rcases Bool.or_eq_true _ _ ▸ hd3 with h | h
      · exact contains_isEmpty_false _ _ h
      · exact contains_isEmpty_false _ _ h
    have hd1' : kw.sasl_username ∉ st.ALLOWED_LOGIN_MISMATCH_SENDERS := by simpa using hd1
    have hd2' : kw.sasl_username_domain ∉ st.ALLOWED_LOGIN_MISMATCH_SENDERS := by
      simpa using hd2
    have hd3' : "@" ++ kw.sasl_username_domain ∈ st.ALLOWED_LOGIN_MISMATCH_SENDERS
        ∨ "@." ∈ st.ALLOWED_LOGIN_MISMATCH_SENDERS := by simpa using hd3
    have hd4' : kw.sasl_username_domain = sd := by simpa using hd4
    have hd2'' : sd ∉ st.ALLOWED_LOGIN_MISMATCH_SENDERS := hd4' ▸ hd2'
    have hd3'' : "@" ++ sd ∈ st.ALLOWED_LOGIN_MISMATCH_SENDERS
        ∨ "@." ∈ st.ALLOWED_LOGIN_MISMATCH_SENDERS := hd4' ▸ hd3'
    have hv : rs_auth st o kw sn sd = SMTP_ACTIONS "default" := by
      simp [rs_auth, hne, hie, rs_allowed_senders_check, hd1', hd2'', hd3'', hd4']
    rw [hauth, hv]
  · intro he1 he2 he3 he4 hstrict hbackend hdn
    have he1' : kw.sasl_username ∉ st.ALLOWED_LOGIN_MISMATCH_SENDERS := by simpa using he1
    have he2' : kw.sasl_username_domain ∉ st.ALLOWED_LOGIN_MISMATCH_SENDERS := by
      simpa using he2
    have he3' : "@" ++ kw.sasl_username_domain ∉ st.ALLOWED_LOGIN_MISMATCH_SENDERS := by
      simpa using he3
    have he4' : "@." ∉ st.ALLOWED_LOGIN_MISMATCH_SENDERS := by simpa using he4
    have hnone : rs_allowed_senders_check st kw.sasl_username kw.sasl_username_domain sd
        = none := by
      unfold rs_allowed_senders_check
      cases hie : st.ALLOWED_LOGIN_MISMATCH_SENDERS.isEmpty with
      | true => simp [hie]
      | false => simp [hie, he1', he2', he3', he4']
    have hv : rs_auth st o kw sn sd = SMTP_ACTIONS "default" := by
      simp only [rs_auth, hne, hstrict, hnone]
      simp only [rs_member_checks, hbackend, hstrict,
        show (("ldap" : String) == "ldap") = true from rfl]
      simp [rs_ldap_checks, hdn]
    rw [hauth, hv]
  · intro hf1 hf2 hf3 hf4 hbe hstrict hrow
    have hf1' : kw.sasl_username ∉ st.ALLOWED_LOGIN_MISMATCH_SENDERS := by simpa using hf1
    have hf2' : kw.sasl_username_domain ∉ st.ALLOWED_LOGIN_MISMATCH_SENDERS := by
      simpa using hf2
    have hf3' : "@" ++ kw.sasl_username_domain ∉ st.ALLOWED_LOGIN_MISMATCH_SENDERS := by
      simpa using hf3
    have hf4' : "@." ∉ st.ALLOWED_LOGIN_MISMATCH_SENDERS := by simpa using hf4
    have hnone : rs_allowed_senders_check st kw.sasl_username kw.sasl_username_domain sd
        = none := by
      unfold rs_allowed_senders_check
      cases hie : st.ALLOWED_LOGIN_MISMATCH_SENDERS.isEmpty with
      | true => simp [hie]
      | false => simp [hie, hf1', hf2', hf3', hf4']
    have hrow' : o.sql_user_alias_row kw.sender_without_ext kw.sasl_username
        ((pySplitChar '@' kw.sasl_username).head?.getD "" ++ "+%@" ++ kw.sasl_username_domain)
        = true := by
      simpa using hrow
    have hv : rs_auth st o kw sn sd = SMTP_ACTIONS "default" := by
      rcases hbe with hb | hb
      · simp only [rs_auth, hne, hstrict, hnone]
        simp only [rs_member_checks, hb, hstrict,
          show (("mysql" : String) == "ldap") = false from rfl,
          show (("mysql" : String) == "mysql") = true from rfl]
        simp [rs_sql_checks, hstrict, hrow']
      · simp only [rs_auth, hne, hstrict, hnone]
        simp only [rs_member_checks, hb, hstrict,
          show (("pgsql" : String) == "ldap") = false from rfl,
          show (("pgsql" : String) == "mysql") = false from rfl,
          show (("pgsql" : String) == "pgsql") = true from rfl]
        simp [rs_sql_checks, hstrict, hrow']
    rw [hauth, hv]
  · intro hg1 hg2 hg3 hg4 hg5 hg6
    have hie : st.ALLOWED_LOGIN_MISMATCH_SENDERS.isEmpty = false := by
      rcases Bool.or_eq_true _ _ ▸ hg3 with h | h
      · exact contains_isEmpty_false _ _ h
      · exact contains_isEmpty_false _ _ h
    have hg1' : kw.sasl_username ∉ st.ALLOWED_LOGIN_MISMATCH_SENDERS := by simpa using hg1
    have hg2' : kw.sasl_username_domain ∉ st.ALLOWED_LOGIN_MISMATCH_SENDERS := by
      simpa using hg2
    have hg3' : "@" ++ kw.sasl_username_domain ∈ st.ALLOWED_LOGIN_MISMATCH_SENDERS
        ∨ "@." ∈ st.ALLOWED_LOGIN_MISMATCH_SENDERS := by simpa using hg3
    have hg4' : ¬(kw.sasl_username_domain = sd) := by simpa using hg4
    have hcheck : rs_allowed_senders_check st kw.sasl_username kw.sasl_username_domain sd
        = none := by
      simp [rs_allowed_senders_check, hie, hg1', hg2', hg3', hg4']
    have hv : rs_auth st o kw sn sd = action_reject := by
      simp [rs_auth, hne, hie, hcheck, hg5, hg6, rs_member_checks]
    rw [hauth, hv]
  · intro hh1 hh2 hh3 hh4 hstrict hbackend hdn
    have hie : st.ALLOWED_LOGIN_MISMATCH_SENDERS.isEmpty = false := by
      rcases Bool.or_eq_true _ _ ▸ hh3 with h | h
      · exact contains_isEmpty_false _ _ h
      · exact contains_isEmpty_false _ _ h
    have hh1' : kw.sasl_username ∉ st.ALLOWED_LOGIN_MISMATCH_SENDERS := by simpa using hh1
    have hh2' : kw.sasl_username_domain ∉ st.ALLOWED_LOGIN_MISMATCH_SENDERS := by
      simpa using hh2
    have hh3' : "@" ++ kw.sasl_username_domain ∈ st.ALLOWED_LOGIN_MISMATCH_SENDERS
        ∨ "@." ∈ st.ALLOWED_LOGIN_MISMATCH_SENDERS := by simpa using hh3
    have hh4' : ¬(kw.sasl_username_domain = sd) := by simpa using hh4
    have hcheck : rs_allowed_senders_check st kw.sasl_username kw.sasl_username_domain sd
        = none := by
      simp [rs_allowed_senders_check, hie, hh1', hh2', hh3', hh4']
    have hv : rs_auth st o kw sn sd = SMTP_ACTIONS "default" := by
      simp only [rs_auth, hne, hstrict, hcheck]
      simp only [rs_member_checks, hbackend, hstrict,
        show (("ldap" : String) == "ldap") = true from rfl]
      simp [rs_ldap_checks, hdn]
    rw [hauth, hv]

open Fixtures in
/-- Witness for C6: `alice@d.com` sending as `bob@d.com` with no bypass
configuration is rejected with the login-mismatch action. -/
theorem claim_C6_login_mismatch_allow_list_witness :
    restriction stNoBypass oApiErr kwMismatch = Except.ok action_reject :=
  (claim_C6_login_mismatch_allow_list stNoBypass oApiErr kwMismatch "bob" "d.com"
    rfl rfl rfl rfl).1 rfl rfl rfl

/-- C7: unauthenticated case: a trusted client address yields DEFAULT
before any other check; an untrusted client with forged-sender checking
enabled, a sender not on the forged-sender allow-list (as address, domain
or `name@*`), a locally hosted sender domain (equal to the recipient domain
or resolved as local non-backup-MX) and the SPF check disabled is rejected
as a forged sender. -/
theorem claim_C7_unauth_forged (st : RSettings) (o : RSOracles) (kw : RKwargs)
    (sn sd : String)
    (hsasl : kw.sasl_username.isEmpty = true)
    (hsplit : rs_split_sender kw.sender_without_ext = Except.ok (sn, sd)) :
    (o.is_trusted_client kw.client_address = true →
      restriction st o kw = Except.ok (SMTP_ACTIONS "default")) ∧
    (o.is_trusted_client kw.client_address = false →
      st.CHECK_FORGED_SENDER = true →
      st.ALLOWED_FORGED_SENDERS.contains kw.sender_without_ext = false →
      st.ALLOWED_FORGED_SENDERS.contains sd = false →
      st.ALLOWED_FORGED_SENDERS.contains (sn ++ "@*") = false →
      ((sd == kw.recipient_domain) = true ∨ o.is_local_domain sd = true) →
      st.CHECK_SPF_IF_LOGIN_MISMATCH = false →
      restriction st o kw = Except.ok (SMTP_ACTIONS "reject_forged_sender")) := by
  have hu := restriction_unauth st o kw sn sd hsasl hsplit
  constructor
  · intro ht
    have hv : rs_unauth st o kw sn sd = SMTP_ACTIONS "default" := by
      simp [rs_unauth, ht]
    rw [hu, hv]
  · intro ht hcf hf1 hf2 hf3 hloc hspf
    have hl : (if sd == kw.recipient_domain then true else o.is_local_domain sd) = true := by
      rcases hloc with h | h
      · rw [h]
        simp
      · cases hrd : (sd == kw.recipient_domain) <;> simp [h]
    have hv : rs_unauth st o kw sn sd = SMTP_ACTIONS "reject_forged_sender" := by
      simp only [rs_unauth, ht, hcf, hf1, hf2, hf3, hspf, hl]
      simp
    rw [hu, hv]

open Fixtures in
/-- Witness for C7: an unauthenticated, untrusted client with a sender
under the local recipient domain and SPF checking disabled is rejected as
forged. -/
theorem claim_C7_unauth_forged_witness :
    restriction stNoBypass oApiErr kwUnauth = Except.ok (SMTP_ACTIONS "reject_forged_sender") :=
  (claim_C7_unauth_forged stNoBypass oApiErr kwUnauth "boss" "d.com" rfl rfl).2
    rfl rfl rfl rfl rfl (Or.inl rfl) rfl

/-- C8: when the sender was recognised as a subscribeable (mlmmj) mailing
list and the membership API call is performed, a failing call (transport or
JSON error) is caught inside the resolver and treated as a no-match — the
evaluation falls through to the final mismatch reject, and no exception
escapes `restriction` (the result is still `Except.ok`); a response whose
`_success` field is true yields DEFAULT. -/
theorem claim_C8_mlmmj_api_failure (st : RSettings) (o : RSOracles) (kw : RKwargs)
    (sn sd : String)
    (hsasl : kw.sasl_username.isEmpty = false)
    (hsend : kw.sender_without_ext.isEmpty = false)
    (hsplit : rs_split_sender kw.sender_without_ext = Except.ok (sn, sd))
    (hne : (kw.sender_without_ext == kw.sasl_username) = false)
    (hallow : st.ALLOWED_LOGIN_MISMATCH_SENDERS = [])
    (hstrict : st.ALLOWED_LOGIN_MISMATCH_STRICTLY = true)
    (hbackend : st.backend = "ldap")
    (hdn1 : o.get_account_ldif_dn kw.sasl_username
        (ldapQueryFilter st kw.sasl_username kw.sender_without_ext) = "")
    (hdn2 : (o.get_account_ldif_dn kw.sender_without_ext
        "(&(objectClass=mailList)(enabledService=mlmmj)(accountStatus=active))").isEmpty
      = false)
    (htok : st.mlmmjadmin_api_auth_token.isEmpty = false)
    (hend : st.mlmmjadmin_api_endpoint.isEmpty = false) :
    (∀ e, o.mlmmj_api (String.intercalate "/"
        [st.mlmmjadmin_api_endpoint, kw.sender_without_ext, "has_subscriber", kw.sasl_username])
        = Except.error e →
      restriction st o kw = Except.ok action_reject) ∧
    (∀ js, o.mlmmj_api (String.intercalate "/"
        [st.mlmmjadmin_api_endpoint, kw.sender_without_ext, "has_subscriber", kw.sasl_username])
        = Except.ok js →
      js.lookup "_success" = some true →
      restriction st o kw = Except.ok (SMTP_ACTIONS "default")) := by
  have hauth := restriction_auth st o kw sn sd hsasl hsend hsplit
  have hnone : rs_allowed_senders_check st kw.sasl_username kw.sasl_username_domain sd
      = none := by
    simp [rs_allowed_senders_check, hallow]
  have hstep : rs_auth st o kw sn sd
      = rs_member_checks st o kw.sasl_username ((pySplitChar '@' kw.sasl_username).headD "")
          kw.sasl_username_domain kw.sender_without_ext sn sd := by
    simp [rs_auth, hne, hstrict, hnone]
  have hldap : rs_ldap_checks st o kw.sasl_username kw.sender_without_ext
      = (none, kw.sender_without_ext, true) := by
    simp [rs_ldap_checks, hdn1, hdn2, show ("" : String).isEmpty = true from rfl]
  constructor
  · intro e he
    have hv : rs_member_checks st o kw.sasl_username
        ((pySplitChar '@' kw.sasl_username).headD "") kw.sasl_username_domain
        kw.sender_without_ext sn sd = action_reject := by
      simp only [rs_member_checks, hbackend, hstrict,
        show (("ldap" : String) == "ldap") = true from rfl, hldap]
      simp [htok, hend, he]
    rw [hauth, hstep, hv]
  · intro js hj hs
    have hv : rs_member_checks st o kw.sasl_username
        ((pySplitChar '@' kw.sasl_username).headD "") kw.sasl_username_domain
        kw.sender_without_ext sn sd = SMTP_ACTIONS "default" := by
      simp only [rs_member_checks, hbackend, hstrict,
        show (("ldap" : String) == "ldap") = true from rfl, hldap]
      simp [htok, hend, hj, hs]
    rw [hauth, hstep, hv]

open Fixtures in
/-- Witness for C8: the concrete mlmmj-list sender with a failing API call
is rejected (no exception escapes), and with a `_success = true` response
the same transaction yields DEFAULT. -/
theorem claim_C8_mlmmj_api_failure_witness :
    restriction stLdap oApiErr kwList = Except.ok action_reject ∧
    restriction stLdap oApiOk kwList = Except.ok (SMTP_ACTIONS "default") := by
  constructor
  · exact (claim_C8_mlmmj_api_failure stLdap oApiErr kwList "mllist" "d.com"
      rfl rfl rfl rfl rfl rfl rfl rfl rfl rfl rfl).1 "ConnectionError" rfl
  · exact (claim_C8_mlmmj_api_failure stLdap oApiOk kwList "mllist" "d.com"
      rfl rfl rfl rfl rfl rfl rfl rfl rfl rfl rfl).2 [("_success", true)] rfl rfl

end LoginMismatch

end IRedAPD
